import Mathlib

/-!
Verification of the session-history and request-assembly logic of the
`claude-wrapper.py` command-line front-end (class `ClaudeWrapper`).

The program keeps a conversation log (a JSON array of `{role, content}`
objects) in a session file, appends a user and an assistant message per
chat turn, and sends only the trailing 10-message window of the log to the
remote chat-completion API.  The embedding below models the four methods
`load_session`, `save_session`, `chat` and `handle_command`, together with
the credential resolution performed by the constructor.  The remote API and
the process environment are modelled as explicit parameters; every
observable effect (stdout, stderr, exit code, session-file state, payloads
sent over the network) is collected in an `Outcome` record.
-/

/-- A chat message: `{"role": ..., "content": ...}` as stored in the
session file and sent to the API. -/
structure Message where
  role : String
  content : String
deriving DecidableEq, Repr

/-- The conversation log: an ordered list of messages
(`self.conversation_history`). -/
abbrev Log := List Message

/-- State of the session file on disk: missing, present but not parseable
by `json.load`, or present and parsing to a log. -/
inductive Disk where
  /-- `os.path.exists(self.session_file)` is false. -/
  | absent : Disk
  /-- the file exists but `json.load` raises. -/
  | malformed : Disk
  /-- the file exists and parses to `log`. -/
  | stored (log : Log) : Disk
deriving DecidableEq, Repr

/-- `load_session` (lines 36-43): if the file exists, try to parse it,
replacing the history with the parsed log, or with `[]` when parsing
raises; if the file does not exist the in-memory history (`prior`, set to
`[]` by the constructor) is left untouched. -/
def load_session (disk : Disk) (prior : Log) : Log :=
  match disk with
  | Disk.absent => prior
  | Disk.malformed => []
  | Disk.stored l => l

/-- `save_session` (lines 45-49): rewrite the whole session file with the
serialization of the log. -/
def save_session (log : Log) : Disk :=
  Disk.stored log

/-- The outbound window `self.conversation_history[-10:]` (line 61): the
last 10 entries of the log (all of it when shorter). -/
def window (log : Log) : Log :=
  log.drop (log.length - 10)

/-- Behaviour of the remote collaborator for one call: either the call
raises, or it yields a response; `fragments` is the sequence of text
pieces produced by `stream.text_stream` in streaming mode, and `blocks`
the texts of the `response.content` blocks in non-streaming mode. -/
inductive RemoteBehavior where
  | raises (msg : String) : RemoteBehavior
  | respond (fragments : List String) (blocks : List String) : RemoteBehavior
deriving DecidableEq, Repr

/-- All observable effects of one operation: the in-memory history and the
session file afterwards, the lines/fragments printed on stdout and stderr,
the exit code passed to `sys.exit` (`none` when the call returns normally,
so that the process later exits 0), and the message payloads sent to the
remote API. -/
structure Outcome where
  history : Log
  disk : Disk
  stdout : List String
  stderr : List String
  exitCode : Option Nat
  sent : List Log
deriving DecidableEq, Repr

/-- `chat` (lines 51-102): append the user message, build the 10-message
window, call the API (streaming or not), print and append the assistant
text, save the session; any exception is caught, printed to stderr as
`Error: ...`, and the process exits 1 (in particular `save_session` is
then never reached, so the file keeps its previous state).  In
non-streaming mode an empty `response.content` makes `response.content[0]`
raise an `IndexError`, which the same `except` block catches. -/
def chat (history : Log) (disk : Disk) (message : String) (stream : Bool)
    (remote : RemoteBehavior) : Outcome :=
  let h1 := history ++ [Message.mk "user" message]
  let messages := window h1
  match remote with
  | RemoteBehavior.raises e =>
      { history := h1, disk := disk, stdout := [],
        stderr := ["Error: " ++ e], exitCode := some 1, sent := [messages] }
  | RemoteBehavior.respond fragments blocks =>
      if stream then
        let response_text := String.join fragments
        let h2 := h1 ++ [Message.mk "assistant" response_text]
        { history := h2, disk := save_session h2, stdout := fragments,
          stderr := [], exitCode := none, sent := [messages] }
      else
        match blocks with
        | [] =>
            { history := h1, disk := disk, stdout := [],
              stderr := ["Error: list index out of range"], exitCode := some 1,
              sent := [messages] }
        | t :: _ =>
            let h2 := h1 ++ [Message.mk "assistant" t]
            { history := h2, disk := save_session h2, stdout := [t],
              stderr := [], exitCode := none, sent := [messages] }

/-- The standard-input stream: whether it is a terminal, and what a full
`sys.stdin.read()` returns. -/
structure Stdin where
  isatty : Bool
  content : String
deriving DecidableEq, Repr

/-- `args.remove('--stream')` guarded by membership (lines 132-134):
remove the first occurrence of `--stream`. -/
def stripStream (args : List String) : List String :=
  if "--stream" ∈ args then args.erase "--stream" else args

/-- Python `str.strip()`: drop leading and trailing whitespace
characters. -/
def pyStrip (s : String) : String :=
  String.mk (((s.data.dropWhile Char.isWhitespace).reverse.dropWhile
    Char.isWhitespace).reverse)

/-- Message resolution (lines 136-145): piped stdin wins, then positional
arguments joined with single spaces, then interactive read; piped and
interactive reads are stripped of surrounding whitespace. -/
def resolve_message (args : List String) (stdin : Stdin) : String :=
  if !stdin.isatty then pyStrip stdin.content
  else if !args.isEmpty then String.intercalate " " args
  else pyStrip stdin.content

/-- The usage text printed by `print_help` (lines 150-176). -/
def helpText : String :=
  "\nClaude CLI Wrapper - Docker Version\n\nUsage:\n  claude [options] [message]\n\nOptions:\n  --stream          Enable streaming mode\n  --continue        Resume previous conversation\n  --clear           Clear conversation history\n  --version         Show version\n  --help            Show this help\n\nExamples:\n  claude \"Hello, Claude!\"\n  echo \"What is Python?\" | claude\n  claude --stream \"Write a long story\"\n  claude --continue\n\nEnvironment Variables:\n  CLAUDE_API_KEY    Your Anthropic API key\n  CLAUDE_MODEL      Model to use (default: claude-3-sonnet-20240229)\n  MAX_TOKENS        Maximum tokens (default: 4096)\n"

/-- The line printed for one stored message by the resume branch
(lines 124-126): role label, colon, first 100 characters of the content,
and a trailing `...`. -/
def resumeLine (msg : Message) : String :=
  (if msg.role = "user" then "You" else "Claude") ++ ": " ++
    msg.content.take 100 ++ "..."

/-- `handle_command` (lines 104-148): dispatch on the flags in order
(`--help`/`-h`, `--version`/`-v`, `--clear`, `--continue`/`--resume`),
otherwise strip `--stream`, resolve the message from stdin or the
remaining arguments, and call `chat` when the message is non-empty. -/
def handle_command (history : Log) (disk : Disk) (args : List String)
    (stdin : Stdin) (remote : RemoteBehavior) : Outcome :=
  if "--help" ∈ args ∨ "-h" ∈ args then
    { history := history, disk := disk, stdout := [helpText],
      stderr := [], exitCode := none, sent := [] }
  else if "--version" ∈ args ∨ "-v" ∈ args then
    { history := history, disk := disk, stdout := ["Claude CLI Wrapper v1.0.0"],
      stderr := [], exitCode := none, sent := [] }
  else if "--clear" ∈ args then
    { history := [], disk := save_session [], stdout := ["Session cleared"],
      stderr := [], exitCode := none, sent := [] }
  else if "--continue" ∈ args ∨ "--resume" ∈ args then
    if history.isEmpty then
      { history := history, disk := disk,
        stdout := ["No previous conversation found"],
        stderr := [], exitCode := none, sent := [] }
    else
      { history := history, disk := disk,
        stdout := "Resuming previous conversation..." ::
          (history.drop (history.length - 2)).map resumeLine,
        stderr := [], exitCode := none, sent := [] }
  else
    let stream := args.contains "--stream"
    let args1 := stripStream args
    let prompt : List String :=
      if stdin.isatty && args1.isEmpty then
        ["Enter your message (Ctrl+D to send):"]
      else []
    let message := resolve_message args1 stdin
    if message = "" then
      { history := history, disk := disk, stdout := prompt,
        stderr := [], exitCode := none, sent := [] }
    else
      let out := chat history disk message stream remote
      { out with stdout := prompt ++ out.stdout }

/-- The credential-bearing part of the process environment:
`CLAUDE_API_KEY` and `ANTHROPIC_API_KEY` (`none` = unset). -/
structure Env where
  claude_api_key : Option String
  anthropic_api_key : Option String
deriving DecidableEq, Repr

/-- Python truthiness of `os.environ.get(...)`: an unset variable and the
empty string are both falsy. -/
def truthy (v : Option String) : Option String :=
  match v with
  | none => none
  | some s => if s = "" then none else some s

/-- `os.environ.get('CLAUDE_API_KEY') or os.environ.get('ANTHROPIC_API_KEY')`
followed by the `if not self.api_key` check (lines 18-22): the credential
resolves when either variable is set to a non-empty string, preferring
`CLAUDE_API_KEY`. -/
def resolveApiKey (env : Env) : Option String :=
  match truthy env.claude_api_key with
  | some k => some k
  | none => truthy env.anthropic_api_key

/-- The constructor `ClaudeWrapper.__init__` (lines 16-34): resolve the
credential; if none resolves, print to stderr and exit 1 before anything
else; otherwise load the session (with the history initialised to `[]`).
It never writes the session file and never contacts the network. -/
def init_wrapper (env : Env) (disk : Disk) : Outcome :=
  match resolveApiKey env with
  | none =>
      { history := [], disk := disk, stdout := [],
        stderr := ["Error: No API key found. Please set CLAUDE_API_KEY or ANTHROPIC_API_KEY"],
        exitCode := some 1, sent := [] }
  | some _ =>
      { history := load_session disk [], disk := disk, stdout := [],
        stderr := [], exitCode := none, sent := [] }

/-- None of the four mode flags handled before message resolution is
present on the command line. -/
def modeFlagFree (args : List String) : Prop :=
  "--help" ∉ args ∧ "-h" ∉ args ∧ "--version" ∉ args ∧ "-v" ∉ args ∧
    "--clear" ∉ args ∧ "--continue" ∉ args ∧ "--resume" ∉ args

instance (args : List String) : Decidable (modeFlagFree args) := by
  unfold modeFlagFree; infer_instance

/-! ## Theorems -/

set_option maxRecDepth 10000

/-- The last entry of `l.drop k` for `k` not past a final singleton:
dropping at most `l.length` elements from `l ++ [a]` keeps the final
`a`. -/
theorem getLast?_drop_concat {α : Type} (l : List α) (a : α) (k : Nat)
    (hk : k ≤ l.length) : ((l ++ [a]).drop k).getLast? = some a := by
  rw [List.drop_append_of_le_length hk, List.getLast?_concat]

/-- C1: `chat` sends exactly one payload, the last-10-entry window of the
log after the user message is appended, in order; the window never exceeds
10 entries and always ends with the just-appended user message. -/
theorem chat_sends_last_ten_window (history : Log) (disk : Disk) (m : String)
    (stream : Bool) (remote : RemoteBehavior) :
    (chat history disk m stream remote).sent =
      [(history ++ [Message.mk "user" m]).drop
        ((history ++ [Message.mk "user" m]).length - 10)] ∧
    (window (history ++ [Message.mk "user" m])).length ≤ 10 ∧
    (window (history ++ [Message.mk "user" m])).getLast? =
      some (Message.mk "user" m) := by
  refine ⟨?_, ?_, ?_⟩
  · cases remote with
    | raises e => rfl
    | respond fragments blocks =>
      cases stream with
      | true => rfl
      | false => cases blocks <;> rfl
  · rw [window, List.length_drop]; omega
  · rw [window]
    apply getLast?_drop_concat
    simp only [List.length_append, List.length_cons, List.length_nil]
    omega

/-- C2: when the session file is absent or malformed, loading yields the
empty log (the constructor initialises the history to `[]` before
loading), and the wrapper starts up without any error output or abnormal
exit. -/
theorem load_session_bad_state_empty (prior : Log) (env : Env) (k : String)
    (hk : resolveApiKey env = some k) :
    load_session Disk.absent [] = [] ∧
    load_session Disk.malformed prior = [] ∧
    (init_wrapper env Disk.absent).history = [] ∧
    (init_wrapper env Disk.malformed).history = [] ∧
    (init_wrapper env Disk.malformed).stderr = [] ∧
    (init_wrapper env Disk.malformed).exitCode = none := by
  refine ⟨rfl, rfl, ?_, ?_, ?_, ?_⟩ <;> simp [init_wrapper, hk, load_session]

theorem load_session_bad_state_empty_witness :
    resolveApiKey (Env.mk (some "k") none) = some "k" ∧
    load_session Disk.malformed [Message.mk "user" "hi"] = [] :=
  ⟨by decide,
    (load_session_bad_state_empty [Message.mk "user" "hi"]
      (Env.mk (some "k") none) "k" (by decide)).2.1⟩

/-- C3: when the remote call raises, `chat` catches the exception, prints
its text to stderr, exits 1, and leaves the session file untouched (only
the in-memory history holds the user message); on success both messages
are appended and saved together. -/
theorem chat_remote_error_atomic (history : Log) (disk : Disk) (m : String)
    (stream : Bool) (e : String) (frags : List String) (t : String)
    (bs : List String) :
    (chat history disk m stream (RemoteBehavior.raises e)).disk = disk ∧
    (chat history disk m stream (RemoteBehavior.raises e)).exitCode = some 1 ∧
    (chat history disk m stream (RemoteBehavior.raises e)).stderr =
      ["Error: " ++ e] ∧
    (chat history disk m stream (RemoteBehavior.raises e)).history =
      history ++ [Message.mk "user" m] ∧
    (chat history disk m false (RemoteBehavior.respond frags (t :: bs))).disk =
      Disk.stored (history ++
        [Message.mk "user" m, Message.mk "assistant" t]) ∧
    (chat history disk m true (RemoteBehavior.respond frags bs)).disk =
      Disk.stored (history ++
        [Message.mk "user" m,
         Message.mk "assistant" (String.join frags)]) := by
  refine ⟨rfl, rfl, rfl, rfl, ?_, ?_⟩ <;> simp [chat, save_session]

/-- C4: loading and immediately saving the unchanged result is a no-op
with respect to every subsequent load; a malformed document is replaced by
the empty-log representation. -/
theorem load_save_roundtrip (disk : Disk) (p : Log) :
    load_session (save_session (load_session disk [])) p =
      load_session disk [] ∧
    save_session (load_session Disk.malformed []) = Disk.stored [] := by
  constructor
  · cases disk <;> rfl
  · rfl

/-- C5 counterexample: with positional argument `hello` present and stdin
a pipe carrying `world`, `handle_command` sends the piped text, not the
joined arguments — piped stdin takes precedence over positional
arguments (line 137 checks `isatty` first). -/
theorem piped_stdin_overrides_args :
    (handle_command [] Disk.absent ["hello"] (Stdin.mk false "world")
        (RemoteBehavior.respond ["Hi"] ["Hi"])).sent =
      [[Message.mk "user" "world"]] ∧
    [[Message.mk "user" "world"]] ≠ [[Message.mk "user" "hello"]] := by
  constructor
  · decide
  · decide

/-- C5 (amended): with no mode flag, the payload `handle_command` hands to
`chat` is built from the resolved message, where the message is the
remaining positional arguments joined with single spaces when stdin is a
terminal and positional arguments are present, and the stripped piped
input whenever stdin is piped (regardless of positional arguments). -/
theorem handle_command_message_resolution (history : Log) (disk : Disk)
    (args : List String) (stdin : Stdin) (remote : RemoteBehavior)
    (hm : modeFlagFree args)
    (hne : resolve_message (stripStream args) stdin ≠ "") :
    (handle_command history disk args stdin remote).sent =
      (chat history disk (resolve_message (stripStream args) stdin)
        (args.contains "--stream") remote).sent ∧
    (stdin.isatty = true → stripStream args ≠ [] →
      resolve_message (stripStream args) stdin =
        String.intercalate " " (stripStream args)) ∧
    (stdin.isatty = false →
      resolve_message (stripStream args) stdin = pyStrip stdin.content) := by
  obtain ⟨h1, h2, h3, h4, h5, h6, h7⟩ := hm
  refine ⟨?_, ?_, ?_⟩
  · unfold handle_command
    rw [if_neg (not_or.mpr ⟨h1, h2⟩), if_neg (not_or.mpr ⟨h3, h4⟩),
      if_neg h5, if_neg (not_or.mpr ⟨h6, h7⟩)]
    simp [hne]
  · intro ht hargs
    rw [resolve_message, ht]
    simp [hargs]
  · intro hf
    rw [resolve_message, hf]
    simp

theorem handle_command_message_resolution_witness :
    modeFlagFree ["hello"] ∧
    resolve_message (stripStream ["hello"]) (Stdin.mk true "") ≠ "" ∧
    (handle_command [] Disk.absent ["hello"] (Stdin.mk true "")
        (RemoteBehavior.respond ["Hi"] ["Hi"])).sent =
      (chat [] Disk.absent
        (resolve_message (stripStream ["hello"]) (Stdin.mk true ""))
        ((["hello"] : List String).contains "--stream")
        (RemoteBehavior.respond ["Hi"] ["Hi"])).sent :=
  ⟨by decide, by decide,
    (handle_command_message_resolution [] Disk.absent ["hello"]
      (Stdin.mk true "") (RemoteBehavior.respond ["Hi"] ["Hi"])
      (by decide) (by decide)).1⟩

/-- C6: when neither credential variable resolves to a non-empty value,
the constructor exits 1 with an error on stderr, sends nothing over the
network, and leaves the session file exactly as it was (in particular an
absent file stays absent: zero bytes written). -/
theorem init_no_credential_fatal (env : Env) (disk : Disk)
    (h : resolveApiKey env = none) :
    (init_wrapper env disk).exitCode = some 1 ∧
    (init_wrapper env disk).disk = disk ∧
    (init_wrapper env disk).sent = [] ∧
    (init_wrapper env disk).stderr ≠ [] := by
  simp [init_wrapper, h]

theorem init_no_credential_fatal_witness :
    resolveApiKey (Env.mk none (some "")) = none ∧
    (init_wrapper (Env.mk none (some "")) Disk.absent).exitCode = some 1 :=
  ⟨by decide,
    (init_no_credential_fatal (Env.mk none (some "")) Disk.absent
      (by decide)).1⟩

/-- C7: starting from a log of exactly 10 entries, a successful chat turn
saves a log of exactly 12 entries — the old 10 unchanged, then the new
user message, then the assistant message; stored history is never
truncated. -/
theorem chat_grows_log_to_twelve (history : Log) (disk : Disk) (m : String)
    (stream : Bool) (frags : List String) (t : String) (bs : List String)
    (h : history.length = 10) :
    (chat history disk m stream
        (RemoteBehavior.respond frags (t :: bs))).disk =
      Disk.stored (history ++
        [Message.mk "user" m,
         Message.mk "assistant" (if stream then String.join frags else t)]) ∧
    (chat history disk m stream
        (RemoteBehavior.respond frags (t :: bs))).history.length = 12 ∧
    (chat history disk m stream
        (RemoteBehavior.respond frags (t :: bs))).history.take 10 =
      history := by
  have htake : ∀ x : Message,
      ((history ++ [Message.mk "user" m]) ++ [x]).take 10 = history := by
    intro x
    rw [List.append_assoc, ← h]
    exact List.take_left history _
  cases stream with
  | true =>
    refine ⟨?_, ?_, htake _⟩
    · simp [chat, save_session]
    · simp [chat, h]
  | false =>
    refine ⟨?_, ?_, htake _⟩
    · simp [chat, save_session]
    · simp [chat, h]

theorem chat_grows_log_to_twelve_witness :
    (List.replicate 10 (Message.mk "user" "x")).length = 10 ∧
    (chat (List.replicate 10 (Message.mk "user" "x")) Disk.absent "m" false
        (RemoteBehavior.respond [] ["ok"])).history.length = 12 :=
  ⟨by decide,
    (chat_grows_log_to_twelve (List.replicate 10 (Message.mk "user" "x"))
      Disk.absent "m" false [] "ok" [] (by decide)).2.1⟩

/-- C8: for the same deterministic mocked remote response — one whose
first content block carries exactly the text that the streaming iterator
delivers in fragments — streaming and non-streaming chat append identical
final assistant text and end with identical logs. -/
theorem stream_nonstream_same_text (history : Log) (disk : Disk) (m : String)
    (frags : List String) (t : String) (bs : List String)
    (h : t = String.join frags) :
    (chat history disk m true
        (RemoteBehavior.respond frags (t :: bs))).history =
      (chat history disk m false
        (RemoteBehavior.respond frags (t :: bs))).history ∧
    (chat history disk m false
        (RemoteBehavior.respond frags (t :: bs))).history.getLast? =
      some (Message.mk "assistant" (String.join frags)) := by
  subst h
  constructor
  · rfl
  · simp [chat, List.getLast?_concat]

theorem stream_nonstream_same_text_witness :
    "Hi there" = String.join ["Hi ", "there"] ∧
    (chat [] Disk.absent "m" true
        (RemoteBehavior.respond ["Hi ", "there"] ["Hi there"])).history =
      (chat [] Disk.absent "m" false
        (RemoteBehavior.respond ["Hi ", "there"] ["Hi there"])).history :=
  ⟨by decide,
    (stream_nonstream_same_text [] Disk.absent "m" ["Hi ", "there"]
      "Hi there" [] (by decide)).1⟩

/-- C9: a `--continue`/`--resume` invocation (with no earlier flag taking
precedence) contacts no network, exits normally, leaves the session file
unchanged, and prints the last at-most-2 stored messages, each as a role
label plus the first 100 characters of the content followed by `...`; on
an empty log it reports that no previous conversation was found. -/
theorem continue_shows_last_two (history : Log) (disk : Disk)
    (args : List String) (stdin : Stdin) (remote : RemoteBehavior)
    (h1 : "--help" ∉ args) (h2 : "-h" ∉ args) (h3 : "--version" ∉ args)
    (h4 : "-v" ∉ args) (h5 : "--clear" ∉ args)
    (hc : "--continue" ∈ args ∨ "--resume" ∈ args) :
    (handle_command history disk args stdin remote).sent = [] ∧
    (handle_command history disk args stdin remote).exitCode = none ∧
    (handle_command history disk args stdin remote).disk = disk ∧
    (history = [] → (handle_command history disk args stdin remote).stdout =
      ["No previous conversation found"]) ∧
    (history ≠ [] → (handle_command history disk args stdin remote).stdout =
      "Resuming previous conversation..." ::
        (history.drop (history.length - 2)).map resumeLine) ∧
    (history.drop (history.length - 2)).length ≤ 2 := by
  have hlen : (history.drop (history.length - 2)).length ≤ 2 := by
    rw [List.length_drop]; omega
  unfold handle_command
  rw [if_neg (not_or.mpr ⟨h1, h2⟩), if_neg (not_or.mpr ⟨h3, h4⟩),
    if_neg h5, if_pos hc]
  cases history with
  | nil => simp
  | cons a l =>
    simp
    omega

theorem continue_shows_last_two_witness :
    ("--continue" ∈ (["--continue"] : List String) ∨
      "--resume" ∈ (["--continue"] : List String)) ∧
    (handle_command [Message.mk "user" "hello"] Disk.absent ["--continue"]
        (Stdin.mk true "") (RemoteBehavior.respond [] [])).sent = [] :=
  ⟨by decide,
    (continue_shows_last_two [Message.mk "user" "hello"] Disk.absent
      ["--continue"] (Stdin.mk true "") (RemoteBehavior.respond [] [])
      (by decide) (by decide) (by decide) (by decide) (by decide)
      (by decide)).1⟩

/-- C10: when the resolved message is empty and no mode flag is present,
`handle_command` sends nothing over the network, leaves the session file
and the in-memory history unchanged, and returns normally. -/
theorem empty_message_no_effect (history : Log) (disk : Disk)
    (args : List String) (stdin : Stdin) (remote : RemoteBehavior)
    (hm : modeFlagFree args)
    (he : resolve_message (stripStream args) stdin = "") :
    (handle_command history disk args stdin remote).sent = [] ∧
    (handle_command history disk args stdin remote).disk = disk ∧
    (handle_command history disk args stdin remote).history = history ∧
    (handle_command history disk args stdin remote).exitCode = none := by
  obtain ⟨h1, h2, h3, h4, h5, h6, h7⟩ := hm
  unfold handle_command
  rw [if_neg (not_or.mpr ⟨h1, h2⟩), if_neg (not_or.mpr ⟨h3, h4⟩),
    if_neg h5, if_neg (not_or.mpr ⟨h6, h7⟩)]
  simp [he]

theorem empty_message_no_effect_witness :
    modeFlagFree ([] : List String) ∧
    resolve_message (stripStream []) (Stdin.mk false "   ") = "" ∧
    (handle_command [] Disk.absent [] (Stdin.mk false "   ")
        (RemoteBehavior.respond [] [])).sent = [] :=
  ⟨by decide, by decide,
    (empty_message_no_effect [] Disk.absent [] (Stdin.mk false "   ")
      (RemoteBehavior.respond [] []) (by decide) (by decide)).1⟩
